import Mathlib

/-!
# opensips_bindings.h

A verification development for the header `src/opensips_bindings.h`.

The header is embedded verbatim as its list of physical source lines.  A small
line-oriented reader for C preprocessor directives (written by structural
recursion over characters, so that it evaluates) turns every line into a
classified `Line`; all statements below are about the result of running that
reader on the embedded text.
-/

namespace OpensipsBindings

/-! ## The source text -/

/-- The physical lines of `src/opensips_bindings.h`, in order (line 1 first).
The file has 46 lines; the last one is not newline-terminated. -/
def opensips_bindings_h : List String :=
  [ "// These were copy/pasted from an arbitrary build of the `options`",
    "// module.",
    "//",
    "// TODO: These need to be pulled from the version of OpenSIPS we are",
    "// building against.",
    "#define PIC",
    "#define MOD_NAME \"options\"",
    "#define PKG_MALLOC",
    "#define SHM_MMAP",
    "#define USE_MCAST",
    "#define DISABLE_NAGLE",
    "#define STATISTICS",
    "#define HAVE_RESOLV_RES",
    "#define F_MALLOC",
    "#define Q_MALLOC",
    "#define HP_MALLOC",
    "#define DBG_MALLOC",
    "#define CC_O0",
    "#define HAVE_STDATOMIC",
    "#define HAVE_GENERICS",
    "#define NAME \"opensips\"",
    "#define VERSION \"3.4.0-dev\"",
    "#define ARCH \"aarch64\"",
    "#define OS \"linux\"",
    "#define COMPILER \"gcc 11\"",
    "#define __CPU_aarch64",
    "#define __OS_linux",
    "#define __SMP_yes",
    "#define CFG_DIR \"/usr/local/etc/opensips/\"",
    "#define VERSIONTYPE \"git\"",
    "#define THISREVISION \"5fc57e944\"",
    "#define HAVE_GETHOSTBYNAME2",
    "#define HAVE_UNION_SEMUN",
    "#define HAVE_SCHED_YIELD",
    "#define HAVE_MSG_NOSIGNAL",
    "#define HAVE_MSGHDR_MSG_CONTROL",
    "#define HAVE_ALLOCA_H",
    "#define HAVE_TIMEGM",
    "#define USE_POSIX_SEM",
    "#define HAVE_EPOLL",
    "#define HAVE_SIGIO_RT",
    "#define HAVE_SELECT",
    "",
    "#include \"sr_module.h\"",
    "#include \"modules/signaling/signaling.h\"",
    "#include \"data_lump_rpl.h\"" ]

/-! ## Data model -/

/-- Replacement text of a `#define`. -/
inductive Replacement where
  /-- Nothing follows the name: a value-less flag. -/
  | empty
  /-- The replacement text is a single string literal with the given contents. -/
  | strLit (contents : String)
  /-- Any other replacement text, kept as written. -/
  | raw (text : String)
  deriving DecidableEq, Repr

/-- How the header name of an `#include` is delimited. -/
inductive Delim where
  /-- Written `"path"`. -/
  | quoted
  /-- Written `<path>`. -/
  | angle
  deriving DecidableEq, Repr

/-- A preprocessor directive. -/
inductive Directive where
  /-- `#define name body` when `params = none`; `#define name(params) body`
  (a function-like definition, parameter list kept as written) otherwise. -/
  | define (name : String) (params : Option String) (body : Replacement)
  /-- `#include "path"` or `#include <path>`. -/
  | includeFile (delim : Delim) (path : String)
  /-- Any other directive (`#if`, `#ifdef`, `#ifndef`, `#else`, `#endif`,
  `#undef`, ...), or a malformed `#define` / `#include`. -/
  | other (keyword : String) (rest : String)
  deriving DecidableEq, Repr

/-- A classified source line. -/
inductive Line where
  /-- Only white space. -/
  | blank
  /-- A `//` comment taking the whole line. -/
  | comment (text : String)
  /-- A line whose first non-blank character is `#`. -/
  | directive (d : Directive)
  /-- Anything else: C code. -/
  | code (text : String)
  deriving DecidableEq, Repr

/-! ## The reader -/

/-- Horizontal white space. -/
def isBlankChar (c : Char) : Bool :=
  c = ' ' || c = '\t' || c = '\r'

/-- Characters of a C identifier: letters, digits, underscore. -/
def isIdentChar (c : Char) : Bool :=
  ('a'.toNat ≤ c.toNat && c.toNat ≤ 'z'.toNat) ||
  ('A'.toNat ≤ c.toNat && c.toNat ≤ 'Z'.toNat) ||
  ('0'.toNat ≤ c.toNat && c.toNat ≤ '9'.toNat) ||
  c = '_'

/-- Drop leading white space. -/
def skipBlanks : List Char → List Char
  | [] => []
  | c :: cs => if isBlankChar c then skipBlanks cs else c :: cs

/-- Drop trailing white space. -/
def dropTrailingBlanks (cs : List Char) : List Char :=
  (skipBlanks cs.reverse).reverse

/-- Split off the longest leading run of identifier characters. -/
def spanIdent : List Char → List Char × List Char
  | [] => ([], [])
  | c :: cs =>
    if isIdentChar c then
      let r := spanIdent cs
      (c :: r.1, r.2)
    else ([], c :: cs)

/-- Split at the first occurrence of `stop`: the characters before it and the
characters after it; `none` when `stop` does not occur. -/
def splitAtChar (stop : Char) : List Char → Option (List Char × List Char)
  | [] => none
  | c :: cs =>
    if c = stop then some ([], cs)
    else
      match splitAtChar stop cs with
      | none => none
      | some (pre, post) => some (c :: pre, post)

/-- Read replacement text (already stripped of surrounding white space). -/
def readReplacement (cs : List Char) : Replacement :=
  match cs with
  | [] => .empty
  | c :: rest =>
    if c = '"' then
      match splitAtChar '"' rest with
      | some (inner, []) =>
        if inner.contains '\\' then .raw (String.mk cs) else .strLit (String.mk inner)
      | _ => .raw (String.mk cs)
    else .raw (String.mk cs)

/-- Read what follows the keyword `define`. -/
def readDefine (cs : List Char) : Directive :=
  let r := spanIdent (skipBlanks cs)
  match r.1, r.2 with
  | [], _ => .other "define" (String.mk cs)
  | name, '(' :: rest =>
    match splitAtChar ')' rest with
    | some (ps, body) =>
      .define (String.mk name) (some (String.mk ps))
        (readReplacement (dropTrailingBlanks (skipBlanks body)))
    | none => .other "define" (String.mk cs)
  | name, rest =>
    .define (String.mk name) none (readReplacement (dropTrailingBlanks (skipBlanks rest)))

/-- Read what follows the keyword `include`. -/
def readInclude (cs : List Char) : Directive :=
  match skipBlanks cs with
  | '"' :: rest =>
    match splitAtChar '"' rest with
    | some (path, tail) =>
      if (skipBlanks tail).isEmpty then .includeFile .quoted (String.mk path)
      else .other "include" (String.mk cs)
    | none => .other "include" (String.mk cs)
  | '<' :: rest =>
    match splitAtChar '>' rest with
    | some (path, tail) =>
      if (skipBlanks tail).isEmpty then .includeFile .angle (String.mk path)
      else .other "include" (String.mk cs)
    | none => .other "include" (String.mk cs)
  | _ => .other "include" (String.mk cs)

/-- Read a directive: `cs` is what follows the `#`. -/
def readDirective (cs : List Char) : Directive :=
  let r := spanIdent (skipBlanks cs)
  if r.1 = "define".data then readDefine r.2
  else if r.1 = "include".data then readInclude r.2
  else .other (String.mk r.1) (String.mk r.2)

/-- Classify one physical line. -/
def readLine (s : String) : Line :=
  match skipBlanks s.data with
  | [] => .blank
  | '#' :: rest => .directive (readDirective rest)
  | '/' :: '/' :: rest => .comment (String.mk rest)
  | cs => .code (String.mk cs)

/-- Number the elements of a list from `n` upwards. -/
def numberFrom {α : Type} (n : Nat) : List α → List (Nat × α)
  | [] => []
  | x :: xs => (n, x) :: numberFrom (n + 1) xs

/-- Every line of the header, classified, with its 1-based line number. -/
def lines : List (Nat × Line) :=
  numberFrom 1 (opensips_bindings_h.map readLine)

/-- The directives of the header with their line numbers, in order. -/
def numberedDirectives : List (Nat × Directive) :=
  lines.filterMap fun p =>
    match p.2 with
    | .directive d => some (p.1, d)
    | _ => none

/-- The ordered list of preprocessor directives of the header. -/
def directives : List Directive :=
  numberedDirectives.map Prod.snd

/-! ## Views of the directive list -/

/-- The three kinds of directive the reader distinguishes. -/
inductive Kind where
  /-- A `#define`. -/
  | define
  /-- An `#include`. -/
  | includeFile
  /-- Anything else. -/
  | other
  deriving DecidableEq, Repr

/-- The kind of a directive. -/
def Directive.kind : Directive → Kind
  | .define _ _ _ => .define
  | .includeFile _ _ => .includeFile
  | .other _ _ => .other

/-- An object-like definition: a `#define` without a parameter list. -/
def Directive.isObjectLikeDefine : Directive → Bool
  | .define _ none _ => true
  | _ => false

/-- A function-like definition: a `#define` with a parameter list. -/
def Directive.isFunctionLikeDefine : Directive → Bool
  | .define _ (some _) _ => true
  | _ => false

/-- An `#include` directive. -/
def Directive.isInclude : Directive → Bool
  | .includeFile _ _ => true
  | _ => false

/-- The keywords of conditional compilation. -/
def conditionalKeywords : List String :=
  ["if", "ifdef", "ifndef", "elif", "else", "endif"]

/-- A conditional-compilation directive. -/
def Directive.isConditional : Directive → Bool
  | .other kw _ => conditionalKeywords.contains kw
  | _ => false

/-- An `#undef` directive. -/
def Directive.isUndef : Directive → Bool
  | .other kw _ => kw = "undef"
  | _ => false

/-- A line of C code (a declaration, a definition, a statement). -/
def Line.isCode : Line → Bool
  | .code _ => true
  | _ => false

/-- The `#define` directives as (name, replacement) pairs, in source order. -/
def definitions : List (String × Replacement) :=
  directives.filterMap fun d =>
    match d with
    | .define name _ body => some (name, body)
    | _ => none

/-- The names introduced by `#define`, in source order. -/
def definedNames : List String :=
  definitions.map Prod.fst

/-- The line numbers on which a `#define` stands, in order. -/
def defineLineNumbers : List Nat :=
  numberedDirectives.filterMap fun p =>
    match p.2 with
    | .define _ _ _ => some p.1
    | _ => none

/-- The `#include` directives as (delimiter, path) pairs, in source order. -/
def includes : List (Delim × String) :=
  directives.filterMap fun d =>
    match d with
    | .includeFile delim path => some (delim, path)
    | _ => none

/-- The name operated on by an `#undef`: the first identifier of its operand. -/
def undefTarget (rest : String) : String :=
  String.mk (spanIdent (skipBlanks rest.data)).1

/-- Remove every entry for `name` from a table. -/
def eraseName (name : String) : List (String × Replacement) → List (String × Replacement)
  | [] => []
  | e :: es => if e.1 = name then eraseName name es else e :: eraseName name es

/-- Effect of one directive of this header on the table of defined names.  A
`#define` (re)binds its name, an `#undef` removes it, everything else leaves
the table alone.  The contents of included files belong to the host platform
and are not part of the header. -/
def applyDirective (table : List (String × Replacement)) : Directive → List (String × Replacement)
  | .define name _ body => (name, body) :: eraseName name table
  | .other kw rest => if kw = "undef" then eraseName (undefTarget rest) table else table
  | .includeFile _ _ => table

/-- The table of names defined by the header once all its directives have been
processed in order, starting from the empty table. -/
def defineTable : List (String × Replacement) :=
  directives.foldl applyDirective []

/-- The replacement text bound to `name` by the header, if any. -/
def lookupDefine (name : String) : Option Replacement :=
  defineTable.lookup name

/-- Outcome of `#ifdef name` evaluated against the header's own definitions. -/
def ifdef (name : String) : Bool :=
  (lookupDefine name).isSome

/-- The contents of the string literal bound to `name`, if `name` is bound to one. -/
def stringValue (name : String) : Option String :=
  match lookupDefine name with
  | some (.strLit s) => some s
  | _ => none

/-- Whether `s` begins with `pre`. -/
def startsWith (pre s : String) : Bool :=
  pre.data.isPrefixOf s.data

/-- Whether `s` ends with `suf`. -/
def endsWith (suf s : String) : Bool :=
  suf.data.reverse.isPrefixOf s.data.reverse

/-- Whether a line opens a block comment. -/
def opensBlockComment : List Char → Bool
  | [] => false
  | '/' :: '*' :: _ => true
  | _ :: cs => opensBlockComment cs

/-- Whether a line ends in a backslash (is spliced with the next line). -/
def endsInSplice (cs : List Char) : Bool :=
  match cs.reverse with
  | '\\' :: _ => true
  | _ => false

/-! ## Sanity checks on the reader -/

example : readLine "#define MOD_NAME \"options\"" =
    .directive (.define "MOD_NAME" none (.strLit "options")) := by decide

example : readLine "  # define MAX(a, b) ((a) > (b) ? (a) : (b))  " =
    .directive (.define "MAX" (some "a, b") (.raw "((a) > (b) ? (a) : (b))")) := by decide

example : readLine "#include <stdio.h>" = .directive (.includeFile .angle "stdio.h") := by decide

example : readLine "#ifdef HAVE_EPOLL" = .directive (.other "ifdef" " HAVE_EPOLL") := by decide

example : (readDirective "ifndef X".data).isConditional = true := by decide

example : (readDirective "undef X".data).isUndef = true := by decide

example : readLine "int x = 0;" = .code "int x = 0;" := by decide

example : readLine " \t" = .blank := by decide

example : applyDirective [("A", .empty), ("B", .empty)] (readDirective "undef A".data) =
    [("B", .empty)] := by decide

/-- The line-by-line reading is adequate for this header: no line opens a block
comment and no line is spliced with its successor, so every physical line is
one logical line. -/
theorem header_is_line_based :
    (∀ s ∈ opensips_bindings_h, opensBlockComment s.data = false) ∧
    (∀ s ∈ opensips_bindings_h, endsInSplice s.data = false) := by
  decide

/-- The header has 46 physical lines. -/
theorem header_line_count : lines.length = 46 := by
  decide

/-! ## Shape of the directive list -/

/-- C1: the ordered directive list of the header is a flat run of `#define`
directives (37 of them) followed by exactly three `#include` directives and
nothing else.  Consequently every `#define` stands on an earlier line than every
`#include`, no directive of another kind occurs anywhere, and what remains
after the leading run of `#define`s is exactly the three `#include`s. -/
theorem directives_defines_then_three_includes :
    directives.map Directive.kind
        = List.replicate 37 Kind.define ++ List.replicate 3 Kind.includeFile ∧
    (∀ p ∈ numberedDirectives, ∀ q ∈ numberedDirectives,
        p.2.kind = Kind.define → q.2.kind = Kind.includeFile → p.1 < q.1) ∧
    (∀ d ∈ directives, d.kind ≠ Kind.other) ∧
    ((directives.dropWhile fun d => d.kind = Kind.define).map Directive.kind
        = [Kind.includeFile, Kind.includeFile, Kind.includeFile]) ∧
    (numberedDirectives.map Prod.fst = List.range' 6 37 ++ [44, 45, 46]) := by
  refine ⟨by decide, by decide, by decide, by decide, by decide⟩

/-- C2: the include list of the header is exactly `"sr_module.h"`,
`"modules/signaling/signaling.h"`, `"data_lump_rpl.h"`, in that order, each
written with double quotes (never with angle brackets); these three are the
only `#include` directives, standing on lines 44, 45 and 46. -/
theorem includes_exact :
    includes = [(Delim.quoted, "sr_module.h"),
                (Delim.quoted, "modules/signaling/signaling.h"),
                (Delim.quoted, "data_lump_rpl.h")] ∧
    (∀ i ∈ includes, i.1 = Delim.quoted) ∧
    (numberedDirectives.filter fun p => p.2.isInclude)
      = [(44, Directive.includeFile Delim.quoted "sr_module.h"),
         (45, Directive.includeFile Delim.quoted "modules/signaling/signaling.h"),
         (46, Directive.includeFile Delim.quoted "data_lump_rpl.h")] := by
  refine ⟨by decide, by decide, by decide⟩

/-- C3: the header has no logic of its own.  Every directive is an object-like
`#define` (no parameter list) or an `#include`; no directive is a conditional
(`#if`, `#ifdef`, `#ifndef`, `#elif`, `#else`, `#endif`), an `#undef` or a
function-like definition; and no line is C code: every line is blank, a
comment, or one of those two kinds of directive. -/
theorem header_has_no_logic :
    (∀ d ∈ directives, d.isObjectLikeDefine = true ∨ d.isInclude = true) ∧
    (∀ d ∈ directives, d.isConditional = false ∧ d.isUndef = false ∧
        d.isFunctionLikeDefine = false) ∧
    (∀ l ∈ lines, l.2.isCode = false) ∧
    (∀ l ∈ lines, l.2 = Line.blank ∨ (∃ t, l.2 = Line.comment t) ∨
        (∃ n b, l.2 = Line.directive (Directive.define n none b)) ∨
        (∃ k f, l.2 = Line.directive (Directive.includeFile k f))) := by
  refine ⟨by decide, by decide, by decide, ?_⟩
  intro l hl
  have hcases : ∀ x ∈ lines,
      (match x.2 with
        | Line.blank => true
        | Line.comment _ => true
        | Line.directive (Directive.define _ none _) => true
        | Line.directive (Directive.includeFile _ _) => true
        | _ => false) = true := by decide
  have h := hcases l hl
  rcases l with ⟨n, ln⟩
  cases ln with
  | blank => exact Or.inl rfl
  | comment t => exact Or.inr (Or.inl ⟨t, rfl⟩)
  | code t => simp at h
  | directive d =>
    cases d with
    | define name params body =>
      cases params with
      | none => exact Or.inr (Or.inr (Or.inl ⟨name, body, rfl⟩))
      | some ps => simp at h
    | includeFile k f => exact Or.inr (Or.inr (Or.inr ⟨k, f, rfl⟩))
    | other kw rest => simp at h

/-! ## The defined names and their values -/

/-- C4: the platform identifiers agree with each other.  `ARCH` is the string
`"aarch64"`, `OS` is the string `"linux"` and `COMPILER` is `"gcc 11"`; the
flags `__CPU_aarch64` and `__OS_linux` are defined; the only defined name that
starts with `__CPU_` is `"__CPU_"` followed by the value of `ARCH`, and the
only defined name that starts with `__OS_` is `"__OS_"` followed by the value
of `OS`. -/
theorem platform_identifiers_agree :
    stringValue "ARCH" = some "aarch64" ∧
    stringValue "OS" = some "linux" ∧
    stringValue "COMPILER" = some "gcc 11" ∧
    ifdef "__CPU_aarch64" = true ∧
    ifdef "__OS_linux" = true ∧
    (definedNames.filter (startsWith "__CPU_")).map some
        = [(stringValue "ARCH").map fun a => "__CPU_" ++ a] ∧
    (definedNames.filter (startsWith "__OS_")).map some
        = [(stringValue "OS").map fun o => "__OS_" ++ o] ∧
    definedNames.filter (startsWith "__CPU_") = ["__CPU_aarch64"] ∧
    definedNames.filter (startsWith "__OS_") = ["__OS_linux"] := by
  refine ⟨by decide, by decide, by decide, by decide, by decide, by decide, by decide,
    by decide, by decide⟩

/-- C5: the feature toggles `HAVE_EPOLL`, `HAVE_SELECT` and `USE_POSIX_SEM` are
each defined by the header with empty replacement text, so `#ifdef` on any of
them holds. -/
theorem feature_toggles_enabled :
    lookupDefine "HAVE_EPOLL" = some Replacement.empty ∧
    lookupDefine "HAVE_SELECT" = some Replacement.empty ∧
    lookupDefine "USE_POSIX_SEM" = some Replacement.empty ∧
    ("HAVE_EPOLL", Replacement.empty) ∈ definitions ∧
    ("HAVE_SELECT", Replacement.empty) ∈ definitions ∧
    ("USE_POSIX_SEM", Replacement.empty) ∈ definitions ∧
    ifdef "HAVE_EPOLL" = true ∧
    ifdef "HAVE_SELECT" = true ∧
    ifdef "USE_POSIX_SEM" = true := by
  refine ⟨by decide, by decide, by decide, by decide, by decide, by decide, by decide,
    by decide, by decide⟩

/-- C6: the memory-allocator selection.  `PKG_MALLOC` and `SHM_MMAP` are
defined; the defined names ending in `_MALLOC` are exactly `PKG_MALLOC`,
`F_MALLOC`, `Q_MALLOC`, `HP_MALLOC` and `DBG_MALLOC` (so the four allocator
families are all selected at once).  Each of the six flags, `SHM_MMAP`
included, is a value-less flag: its replacement text is empty. -/
theorem allocator_selection :
    ifdef "PKG_MALLOC" = true ∧
    ifdef "SHM_MMAP" = true ∧
    ifdef "F_MALLOC" = true ∧
    ifdef "Q_MALLOC" = true ∧
    ifdef "HP_MALLOC" = true ∧
    ifdef "DBG_MALLOC" = true ∧
    definedNames.filter (endsWith "_MALLOC")
        = ["PKG_MALLOC", "F_MALLOC", "Q_MALLOC", "HP_MALLOC", "DBG_MALLOC"] ∧
    (∀ n : String, (n ∈ definedNames ∧ endsWith "_MALLOC" n = true) ↔
        n ∈ ["PKG_MALLOC", "F_MALLOC", "Q_MALLOC", "HP_MALLOC", "DBG_MALLOC"]) ∧
    (∀ n ∈ ["PKG_MALLOC", "F_MALLOC", "Q_MALLOC", "HP_MALLOC", "DBG_MALLOC"],
        lookupDefine n = some Replacement.empty) ∧
    (∀ d ∈ definitions, endsWith "_MALLOC" d.1 = true → d.2 = Replacement.empty) ∧
    lookupDefine "SHM_MMAP" = some Replacement.empty ∧
    ("SHM_MMAP", Replacement.empty) ∈ definitions ∧
    (∀ n ∈ ["PKG_MALLOC", "SHM_MMAP", "F_MALLOC", "Q_MALLOC", "HP_MALLOC", "DBG_MALLOC"],
        (n, Replacement.empty) ∈ definitions ∧ lookupDefine n = some Replacement.empty) := by
  have hfilter : definedNames.filter (endsWith "_MALLOC")
      = ["PKG_MALLOC", "F_MALLOC", "Q_MALLOC", "HP_MALLOC", "DBG_MALLOC"] := by decide
  refine ⟨by decide, by decide, by decide, by decide, by decide, by decide, hfilter, ?_,
    by decide, by decide, by decide, by decide, by decide⟩
  intro n
  rw [← hfilter, List.mem_filter]

/-- C7: the names that carry a value are exactly the nine string-valued ones,
`MOD_NAME = "options"`, `NAME = "opensips"`, `VERSION = "3.4.0-dev"`,
`ARCH = "aarch64"`, `OS = "linux"`, `COMPILER = "gcc 11"`,
`CFG_DIR = "/usr/local/etc/opensips/"`, `VERSIONTYPE = "git"` and
`THISREVISION = "5fc57e944"`; every other name defined by the header has empty
replacement text. -/
theorem valued_names_exact :
    definitions.filter (fun d => decide (d.2 ≠ Replacement.empty))
        = [("MOD_NAME", Replacement.strLit "options"),
           ("NAME", Replacement.strLit "opensips"),
           ("VERSION", Replacement.strLit "3.4.0-dev"),
           ("ARCH", Replacement.strLit "aarch64"),
           ("OS", Replacement.strLit "linux"),
           ("COMPILER", Replacement.strLit "gcc 11"),
           ("CFG_DIR", Replacement.strLit "/usr/local/etc/opensips/"),
           ("VERSIONTYPE", Replacement.strLit "git"),
           ("THISREVISION", Replacement.strLit "5fc57e944")] ∧
    (stringValue "MOD_NAME" = some "options" ∧
      stringValue "NAME" = some "opensips" ∧
      stringValue "VERSION" = some "3.4.0-dev" ∧
      stringValue "ARCH" = some "aarch64" ∧
      stringValue "OS" = some "linux" ∧
      stringValue "COMPILER" = some "gcc 11" ∧
      stringValue "CFG_DIR" = some "/usr/local/etc/opensips/" ∧
      stringValue "VERSIONTYPE" = some "git" ∧
      stringValue "THISREVISION" = some "5fc57e944") ∧
    (∀ d ∈ definitions,
        d.1 ∉ ["MOD_NAME", "NAME", "VERSION", "ARCH", "OS", "COMPILER", "CFG_DIR",
               "VERSIONTYPE", "THISREVISION"] →
        d.2 = Replacement.empty) ∧
    (definitions.filter fun d => decide (d.2 = Replacement.empty)).length = 28 := by
  refine ⟨by decide, by decide, by decide, by decide⟩

/-- C8: no name is defined twice.  The `#define` directives stand on lines 6 to
42, one per line, 37 in all, and introduce 37 pairwise distinct names; hence
the table built by processing the directives in order binds every defined name
to the replacement text written next to it, and holds nothing else. -/
theorem defined_names_distinct :
    defineLineNumbers = List.range' 6 37 ∧
    definedNames.length = 37 ∧
    definedNames.Nodup ∧
    (∀ d ∈ definitions, lookupDefine d.1 = some d.2) ∧
    defineTable.length = 37 ∧
    (∀ e ∈ defineTable, e ∈ definitions) := by
  refine ⟨by decide, by decide, by decide, by decide, by decide, by decide⟩

end OpensipsBindings
